import Mathlib

/-!
# Verification of the Visualize-F1 data/prediction core

Shallow embedding of the repository's data-acquisition, feature-parsing and
prediction-UI logic (src/app.py, src/trial/try2.py, src/trial/f1 - Copy.py),
with theorems settling the specified properties.
-/

namespace VF

/-! ## Python string primitives

The feature parser of `src/app.py` (predict_laptime_btn handler) uses
`str.strip`, `str.splitlines`, `str.split("=", 1)` and `float(...)`.
We model them over `List Char`.  `strip` is modelled on the ASCII
whitespace characters (Python also strips some further Unicode space
characters, which never occur in the inputs considered here). -/

def pyIsSpace (c : Char) : Bool :=
  c = ' ' || c = '\t' || c = '\n' || c = '\r' || c = '\x0b' || c = '\x0c'

def pyStripList (cs : List Char) : List Char :=
  ((cs.dropWhile pyIsSpace).reverse.dropWhile pyIsSpace).reverse

def pyStrip (s : String) : String :=
  ⟨pyStripList s.data⟩

/-- Python `str.splitlines` is modelled in two passes; line boundaries are
`\n`, `\r` and `\r\n` (the rarer Unicode boundary characters are not
modelled); a trailing boundary does not open an extra empty line, and `""`
gives `[]`.  First pass: collapse each `\r\n` pair to the single boundary
`\r` (drop the `\n` that immediately follows a `\r`). -/
def stripLfAfterCr : List Char → List Char
  | [] => []
  | [c] => [c]
  | c :: c2 :: rest =>
    if c = '\r' && c2 = '\n' then c :: stripLfAfterCr rest
    else c :: stripLfAfterCr (c2 :: rest)

/-- Second pass: split at each remaining `\n` or `\r`; a trailing boundary
does not open an extra empty line. -/
def splitlinesAux : List Char → List Char → List (List Char)
  | [], acc => if acc.isEmpty then [] else [acc.reverse]
  | c :: rest, acc =>
    if c = '\n' || c = '\r' then acc.reverse :: splitlinesAux rest []
    else splitlinesAux rest (c :: acc)

def pySplitlines (s : String) : List String :=
  (splitlinesAux (stripLfAfterCr s.data) []).map fun cs => ⟨cs⟩

/-- Python `line.split(sep, 1)` for a one-character separator: split at the first
occurrence only; `none` when the separator does not occur
(which is exactly the `"=" not in line` test of the handler). -/
def splitFirstBy (p : Char → Bool) : List Char → Option (List Char × List Char)
  | [] => none
  | c :: rest =>
    if p c then some ([], rest)
    else (splitFirstBy p rest).map fun kv => (c :: kv.1, kv.2)

/-! ## CPython `float(str)`

Grammar accepted by `float` on a string (CPython): surrounding whitespace,
an optional sign, then either `inf`/`infinity`/`nan` (case-insensitive) or a
decimal number `digitpart [. digitpart] [e sign digitpart]` where a
`digitpart` is digits with single underscores allowed between digits.
Finite values are represented exactly as rationals (the rounding of the
decimal literal to binary64 is not modelled; none of the properties below
depends on it). -/

inductive PyFloat where
  | finite (q : ℚ)
  | infinity (neg : Bool)
  | nan (neg : Bool)
deriving DecidableEq, Repr

/-- Continuation of a digit part after its first digit: digits with single
underscores allowed only between digits. -/
def digitPartAux : List Char → Bool
  | [] => true
  | [c] => c.isDigit
  | c :: c2 :: rest =>
    if c = '_' then c2.isDigit && digitPartAux rest
    else c.isDigit && digitPartAux (c2 :: rest)

/-- A valid Python digit part: at least one digit, single underscores
only between digits. -/
def isDigitPart : List Char → Bool
  | [] => false
  | c :: rest => c.isDigit && digitPartAux rest

def digitsToNat (cs : List Char) : ℕ :=
  (cs.filter (fun c => c ≠ '_')).foldl (fun n c => 10 * n + (c.toNat - 48)) 0

def numDigits (cs : List Char) : ℕ :=
  (cs.filter (fun c => c ≠ '_')).length

/-- Optional leading sign; returns (isNegative, rest). -/
def splitSign : List Char → Bool × List Char
  | [] => (false, [])
  | c :: rest =>
    if c = '-' then (true, rest)
    else if c = '+' then (false, rest)
    else (false, c :: rest)

/-- Mantissa: `digitpart`, `digitpart .`, `. digitpart` or
`digitpart . digitpart`. -/
def parseMantissa (cs : List Char) : Option ℚ :=
  match splitFirstBy (fun c => c = '.') cs with
  | none => if isDigitPart cs then some (digitsToNat cs : ℚ) else none
  | some (ip, fp) =>
    if ip.isEmpty && fp.isEmpty then none
    else if (ip.isEmpty || isDigitPart ip) && (fp.isEmpty || isDigitPart fp) then
      some ((digitsToNat ip : ℚ) + (digitsToNat fp : ℚ) / ((10 : ℚ) ^ numDigits fp))
    else none

/-- Exponent part after `e`/`E`: optional sign then a digit part. -/
def parseExpPart (cs : List Char) : Option ℤ :=
  let sn := splitSign cs
  if isDigitPart sn.2 then
    some (if sn.1 then -(digitsToNat sn.2 : ℤ) else (digitsToNat sn.2 : ℤ))
  else none

def parseNumber (cs : List Char) : Option ℚ :=
  match splitFirstBy (fun c => c = 'e' || c = 'E') cs with
  | none => parseMantissa cs
  | some (m, e) =>
    match parseMantissa m, parseExpPart e with
    | some q, some ex => some (q * (10 : ℚ) ^ ex)
    | _, _ => none

/-- CPython `float(s)` on a string: `some` value on success, `none` when CPython
would raise `ValueError` (the handler's fallback-to-string case). -/
def pyFloat (s : String) : Option PyFloat :=
  let cs := pyStripList s.data
  let sn := splitSign cs
  let low := sn.2.map Char.toLower
  if low = "inf".data || low = "infinity".data then some (.infinity sn.1)
  else if low = "nan".data then some (.nan sn.1)
  else
    match parseNumber sn.2 with
    | some q => some (.finite (if sn.1 then -q else q))
    | none => none

/-! ## The feature-vector parser (src/app.py, predict_laptime_btn handler) -/

/-- A parsed feature value: a float on successful coercion, otherwise the
trimmed string (used for categoricals). -/
inductive PyVal where
  | num (x : PyFloat)
  | str (s : String)
deriving DecidableEq, Repr

/-- The `feature_dict` is a Python dict built by insertion: insertion order is
kept, and assigning to an existing key updates it in place. -/
abbrev FeatureDict := List (String × PyVal)

/-- Python `feature_dict[key] = v`: update the existing slot in place when the key
is present (keys of a Python dict are unique), append otherwise. -/
def dictInsert : FeatureDict → String → PyVal → FeatureDict
  | [], k, v => [(k, v)]
  | p :: rest, k, v => if p.1 = k then (k, v) :: rest else p :: dictInsert rest k v

/-- One iteration of the parsing loop (src/app.py lines 644-657):
strip the line; skip it when blank or without `=`; split on the first `=`;
strip key and value; try `float(val)`, falling back to the string. -/
def parseKVLine (d : FeatureDict) (rawLine : String) : FeatureDict :=
  let line := pyStrip rawLine
  if line = "" then d
  else
    match splitFirstBy (fun c => c = '=') line.data with
    | none => d
    | some kv =>
      let key : String := ⟨pyStripList kv.1⟩
      let val : String := ⟨pyStripList kv.2⟩
      match pyFloat val with
      | some f => dictInsert d key (.num f)
      | none => dictInsert d key (.str val)

/-- The whole parsing loop: `for line in user_kv_text.splitlines(): ...`. -/
def parseFeatures (text : String) : FeatureDict :=
  (pySplitlines text).foldl parseKVLine []

/-- Outcome of the `predict_laptime_btn` handler (src/app.py lines 639-668):
warning on blank input, warning when no valid pair was parsed, otherwise the
prediction is attempted on the parsed features. -/
inductive PredictOutcome where
  | emptyInputWarning
  | noValidPairsWarning
  | predictAttempt (d : FeatureDict)
deriving DecidableEq, Repr

def predict_laptime_btn (user_kv_text : String) : PredictOutcome :=
  if pyStrip user_kv_text = "" then .emptyInputWarning
  else
    let d := parseFeatures user_kv_text
    if d = [] then .noValidPairsWarning
    else .predictAttempt d

/-! ## Session cache (src/trial/try2.py) -/

/-- The (season, event, session-type) triple addressing one cache entry. -/
structure SessionKey where
  year : Int
  gpName : String
  sessionName : String
deriving DecidableEq, Repr

/-- The cache directory for a key, exactly as built in try2.py line 12:
`f"cache/{year}/{gp_name}/{session_name}"`. -/
def cache_path (k : SessionKey) : String :=
  "cache/" ++ toString k.year ++ "/" ++ k.gpName ++ "/" ++ k.sessionName

/-- The on-disk cache as far as these claims observe it: which paths exist
(`os.path.exists`), and which directories hold a complete, non-corrupt
entry (its bytes, for the byte-identical round-trip). -/
structure CacheState where
  pathExists : String → Bool
  completeData : String → Option (List ℕ)

/-- Function `session_exists` from try2.py lines 10-13: the sole exists-check is
`os.path.exists` on the key's directory. -/
def session_exists (st : CacheState) (year : Int) (gp_name session_name : String) : Bool :=
  st.pathExists (cache_path ⟨year, gp_name, session_name⟩)

/-- Modelled from the spec: the `store(key, Session)` operation (performed
by the upstream fastf1 library, not under src/) materializes the full
session under the key's directory, so the directory exists and holds the
complete data. -/
def cache_store (st : CacheState) (k : SessionKey) (data : List ℕ) : CacheState :=
  { pathExists := fun p => if p = cache_path k then true else st.pathExists p
  , completeData := fun p => if p = cache_path k then some data else st.completeData p }

/-- Modelled from the spec: a fetch interrupted mid-store (the known race
of section 4.1) leaves the key's directory present without a complete
entry. -/
def cache_store_interrupted (st : CacheState) (k : SessionKey) : CacheState :=
  { pathExists := fun p => if p = cache_path k then true else st.pathExists p
  , completeData := fun p => if p = cache_path k then none else st.completeData p }

/-- Modelled from the spec: `load(key)` returns the complete entry, and
fails (`CacheCorruptError`, here `none`) if the entry is only partially
written. -/
def cache_load (st : CacheState) (k : SessionKey) : Option (List ℕ) :=
  st.completeData (cache_path k)

def emptyCache : CacheState :=
  { pathExists := fun _ => false, completeData := fun _ => none }

/-! ## Laps and the fastest lap (src/trial/f1 - Copy.py) -/

/-- One row of `session.laps`, restricted to the fields these claims
observe.  `carData` is the lap's raw car-telemetry samples, consumed by
`get_telemetry_data`. -/
structure CarSample where
  time : ℚ
  speed : ℚ
  rpm : ℚ
  throttle : ℚ
  brake : Bool
  gear : ℕ
deriving DecidableEq, Repr

structure Lap where
  driver : String
  lapNumber : ℕ
  lapTime : Option ℚ
  carData : List CarSample
deriving DecidableEq, Repr

structure Session where
  laps : List Lap
deriving DecidableEq, Repr

/-- fastf1 `Laps.pick_drivers`: the driver's laps, in their original
order. -/
def pick_drivers (laps : List Lap) (code : String) : List Lap :=
  laps.filter fun l => l.driver = code

/-- Modelled from the spec: fastf1's `Laps.pick_fastest` is not under
src/; per the spec it selects the minimum lapTime among the laps with a
non-null lapTime (the first such lap on ties) and returns null when there
is no timed lap. -/
def pick_fastest : List Lap → Option Lap
  | [] => none
  | l :: rest =>
    match l.lapTime with
    | none => pick_fastest rest
    | some t =>
      match pick_fastest rest with
      | none => some l
      | some b =>
        match b.lapTime with
        | none => some l
        | some tb => if t ≤ tb then some l else some b

/-- Function `get_fastest_lap` from f1 - Copy.py lines 25-31. -/
def get_fastest_lap (session : Session) (driver_code : String) : Option Lap :=
  pick_fastest (pick_drivers session.laps driver_code)

/-! ## Telemetry with distance (src/trial/f1 - Copy.py lines 34-39) -/

/-- A telemetry sample together with the cumulative `Distance` column. -/
structure DistSample where
  sample : CarSample
  distance : ℚ
deriving DecidableEq, Repr

/-- Modelled from the spec: fastf1's `Telemetry.add_distance` is not under
src/; per the spec the `Distance` column integrates speed over the time
samples, starting at 0: each later sample adds speed (km/h, divided by
3.6 for m/s) times the time step.  One output sample per input sample. -/
def add_distanceAux (prevTime prevDist : ℚ) : List CarSample → List DistSample
  | [] => []
  | c :: rest =>
    let d := prevDist + c.speed / (18 / 5) * (c.time - prevTime)
    ⟨c, d⟩ :: add_distanceAux c.time d rest

def add_distance : List CarSample → List DistSample
  | [] => []
  | c :: rest => ⟨c, 0⟩ :: add_distanceAux c.time 0 rest

/-- Function `get_telemetry_data` from f1 - Copy.py:
`fastest_lap.get_car_data().add_distance()`. -/
def get_telemetry_data (fastest_lap : Lap) : List DistSample :=
  add_distance fastest_lap.carData

/-! ## Bulk refresh (src/trial/try2.py lines 15-38) -/

/-- What the upstream provider does for one (year, event, session) tuple:
the load succeeds (with possibly empty laps) or some exception is raised
inside `get_session` / `load` / `laps`. -/
inductive FetchOutcome where
  | ok (lapsEmpty : Bool)
  | exn (msg : String)
deriving DecidableEq, Repr

/-- The environment of the bulk-refresh script: the event schedule per
season (`fastf1.get_event_schedule`, EventName column), the local cache
directories, and the upstream fetch behaviour per tuple. -/
structure World where
  schedule : Int → List String
  cache : CacheState
  fetch : Int → String → String → FetchOutcome

/-- One print statement of try2.py, as a log line. -/
inductive LogLine where
  | checking (year : Int) (gp s : String)
  | loaded (year : Int) (gp s : String)
  | noLaps (year : Int) (gp s : String)
  | failedMsg (year : Int) (gp s : String) (err : String)
  | cachedMsg (year : Int) (gp s : String)
deriving DecidableEq, Repr

/-- Function `fetch_session_data` from try2.py lines 15-27: print Checking, then
try the fetch; on success print Data-loaded or No-laps depending on
`laps.empty`; any exception is caught and printed as Failed (nothing is
re-raised). -/
def fetch_session_data (w : World) (year : Int) (gp s : String) : List LogLine :=
  .checking year gp s ::
    match w.fetch year gp s with
    | .ok lapsEmpty => if lapsEmpty then [.noLaps year gp s] else [.loaded year gp s]
    | .exn e => [.failedMsg year gp s e]

/-- The body of the innermost loop of try2.py lines 34-38: when the
cache directory for the tuple does not exist, download (printing the fetch
messages), otherwise print the Cached line. -/
def refresh_item (w : World) (season : Int) (gp session_name : String) : List LogLine :=
  if !session_exists w.cache season gp session_name then
    fetch_session_data w season gp session_name
  else [.cachedMsg season gp session_name]

/-- The scan-and-download main loop of try2.py lines 30-38: nested loops
over seasons, the season's schedule and the session types, accumulating
the printed lines. -/
def bulk_refresh (w : World) (seasons : List Int) (sessions : List String) : List LogLine :=
  seasons.foldl
    (fun log season =>
      (w.schedule season).foldl
        (fun log gp =>
          sessions.foldl
            (fun log session_name => log ++ refresh_item w season gp session_name)
            log)
        log)
    []

/-- The three per-item statuses of the spec's bulk-refresh property. -/
inductive StatusClass where
  | cachedHit
  | fetched
  | failed
deriving DecidableEq, Repr

/-- The status line a log line represents: Data-loaded and No-laps are both
completed fetches (per section 4.2 an empty session is a valid terminal
state, not an error); the Checking line is not a status. -/
def statusEntry : LogLine → Option ((Int × String × String) × StatusClass)
  | .checking _ _ _ => none
  | .loaded y g s => some ((y, g, s), .fetched)
  | .noLaps y g s => some ((y, g, s), .fetched)
  | .failedMsg y g s _ => some ((y, g, s), .failed)
  | .cachedMsg y g s => some ((y, g, s), .cachedHit)

/-- The status the loop decides for one tuple, reading the world only at
that tuple. -/
def tupleStatus (w : World) (y : Int) (gp s : String) : StatusClass :=
  if session_exists w.cache y gp s then .cachedHit
  else
    match w.fetch y gp s with
    | .ok _ => .fetched
    | .exn _ => .failed

/-- All (season, event, session-type) tuples the loop iterates, in
iteration order. -/
def allTuples (w : World) (seasons : List Int) (sessions : List String) :
    List (Int × String × String) :=
  seasons.flatMap fun y => (w.schedule y).flatMap fun gp => sessions.map fun s => (y, gp, s)

/-! ## Feature-importance ranking (src/app.py lines 537-543) -/

/-- One row of `imp_df`. -/
structure FeatImp where
  feature : String
  importance : ℚ
deriving DecidableEq, Repr

/-- The table `imp_df` before sorting: the preprocessor's feature names zipped with
the regressor's importance scores. -/
def imp_df (featureNames : List String) (importances : List ℚ) : List FeatImp :=
  List.zipWith (fun f i => ⟨f, i⟩) featureNames importances

/-- pandas `DataFrame.sort_values("importance", ascending=False)` with the
default `kind='quicksort'`: the result is a permutation of the rows that is
sorted descending by importance.  The pandas/numpy documentation states
that quicksort is not a stable algorithm, so the order of rows with equal
keys is unspecified; the operation is therefore modelled as the set of
admissible outputs. -/
def sort_values_desc (rows out : List FeatImp) : Prop :=
  rows.Perm out ∧ out.Sorted fun a b => b.importance ≤ a.importance

instance : ∀ rows out, Decidable (sort_values_desc rows out) := fun _ _ =>
  instDecidableAnd

/-- The claim's stability requirement, stated from the spec's words: any
two equal-importance rows occur in the output in the same relative order
as in the input. -/
def tiesKeepOriginalOrder (rows out : List FeatImp) : Prop :=
  ∀ a ∈ rows, ∀ b ∈ rows, a.importance = b.importance →
    (rows.indexOf a < rows.indexOf b ↔ out.indexOf a < out.indexOf b)

instance : ∀ rows out, Decidable (tiesKeepOriginalOrder rows out) := fun rows _ =>
  List.decidableBAll _ rows

/-! ## Lap-time model loading (src/app.py lines 83-94 and 478-481) -/

/-- An opaque handle for the deserialized joblib pipeline object. -/
structure Pipe where
  tag : ℕ
deriving DecidableEq, Repr

/-- Function `load_laptime_model` from app.py lines 83-94: `joblib.load` in a
try/except; on any failure an error is reported (`st.error`) and `None` is
returned.  The result is the returned model together with the reported
error message, if any. -/
def load_laptime_model (loadAttempt : Except String Pipe) : Option Pipe × Option String :=
  match loadAttempt with
  | .ok m => (some m, none)
  | .error e => (none, some ("⚠️ Could not load lap time model: " ++ e))

/-- What tab 6 renders (app.py lines 478-481): a warning when the model is
`None`, the full model/prediction UI otherwise. -/
inductive Tab6View where
  | modelUnavailableWarning
  | predictionUI (pipe : Pipe)
deriving DecidableEq, Repr

def tab6_render (model_pipe : Option Pipe) : Tab6View :=
  match model_pipe with
  | none => .modelUnavailableWarning
  | some m => .predictionUI m

/-- The per-driver view the app renders once a session is loaded: the
analytics tabs are computed from the session, driver and fastest lap only
(tabs 1-5 never reference the model), and tab 6 from the model-load
result. -/
structure AppRender where
  telemetryTab : List DistSample
  driverLapsTab : List Lap
  tab6 : Tab6View
deriving DecidableEq, Repr

def render_driver_view (session : Session) (driver : String) (fastest : Lap)
    (loadAttempt : Except String Pipe) : AppRender :=
  { telemetryTab := get_telemetry_data fastest
  , driverLapsTab := pick_drivers session.laps driver
  , tab6 := tab6_render (load_laptime_model loadAttempt).1 }

/-! ## Theorems: the feature-vector parser (claims C3, C4, C5, C10) -/

/-- C3: the feature parser trims each line, skips blank lines and lines
without `=`, splits on the first `=` only (values may contain `=`), and
coerces the value to a float with fallback to the trimmed string; the
example lines `driver=VER`, `lap_number=12`, `track_temp=41.5` parse to
driver ↦ "VER", lap_number ↦ 12.0, track_temp ↦ 41.5. -/
theorem C3_feature_parsing_rule :
    parseFeatures "driver=VER\nlap_number=12\ntrack_temp=41.5" =
      [("driver", .str "VER"), ("lap_number", .num (.finite 12)),
       ("track_temp", .num (.finite (83 / 2)))] ∧
    (∀ d : FeatureDict, parseKVLine d "   " = d) ∧
    (∀ d : FeatureDict, parseKVLine d " driver VER " = d) ∧
    parseFeatures " a = b=c " = [("a", .str "b=c")] := by
  refine ⟨?_, fun d => rfl, fun d => rfl, by decide⟩
  have hval : pyFloat "41.5" = some (.finite (83 / 2)) := by
    have h0 : pyFloat "41.5" =
        some (.finite ((digitsToNat ['4', '1'] : ℚ) +
          (digitsToNat ['5'] : ℚ) / (10 : ℚ) ^ numDigits ['5'])) := rfl
    have hv2 : (digitsToNat ['4', '1'] : ℚ) +
        (digitsToNat ['5'] : ℚ) / (10 : ℚ) ^ numDigits ['5'] = 83 / 2 := by
      show (41 : ℚ) + (5 : ℚ) / (10 : ℚ) ^ (1 : ℕ) = 83 / 2
      norm_num
    rw [h0, hv2]
  have h1 : pySplitlines "driver=VER\nlap_number=12\ntrack_temp=41.5" =
      ["driver=VER", "lap_number=12", "track_temp=41.5"] := by decide
  have h2 : parseKVLine [] "driver=VER" = [("driver", .str "VER")] := by decide
  have h3 : parseKVLine [("driver", .str "VER")] "lap_number=12" =
      [("driver", .str "VER"), ("lap_number", .num (.finite 12))] := by decide
  have h4 : parseKVLine [("driver", .str "VER"), ("lap_number", .num (.finite 12))]
      "track_temp=41.5" =
      [("driver", .str "VER"), ("lap_number", .num (.finite 12)),
       ("track_temp", .num (.finite (83 / 2)))] := by
    have hstep : parseKVLine [("driver", .str "VER"), ("lap_number", .num (.finite 12))]
        "track_temp=41.5" =
        (match pyFloat "41.5" with
         | some f =>
            dictInsert [("driver", .str "VER"), ("lap_number", .num (.finite 12))]
              "track_temp" (.num f)
         | none =>
            dictInsert [("driver", .str "VER"), ("lap_number", .num (.finite 12))]
              "track_temp" (.str "41.5")) := rfl
    rw [hstep, hval]
    rfl
  rw [parseFeatures, h1, List.foldl_cons, h2, List.foldl_cons, h3, List.foldl_cons, h4,
    List.foldl_nil]

/-- Helper for C4: assigning the same key twice keeps only the last
value, for every starting dictionary. -/
theorem dictInsert_overwrite (d : FeatureDict) (k : String) (v1 v2 : PyVal) :
    dictInsert (dictInsert d k v1) k v2 = dictInsert d k v2 := by
  induction d with
  | nil => simp [dictInsert]
  | cons p rest ih =>
    by_cases h : p.1 = k
    · simp [dictInsert, h]
    · simp [dictInsert, h, ih]

/-- C4: with duplicate keys the last occurrence wins; in particular
`"a=1\na=2"` parses to a ↦ 2. -/
theorem C4_duplicate_keys_last_wins :
    parseFeatures "a=1\na=2" = [("a", .num (.finite 2))] ∧
    (∀ (d : FeatureDict) (k : String) (v1 v2 : PyVal),
      dictInsert (dictInsert d k v1) k v2 = dictInsert d k v2) :=
  ⟨by decide, dictInsert_overwrite⟩

/-- C5: input yielding no valid key=value pair (in particular empty or
all-blank input) is answered by one of the two explicit warnings and the
prediction is never attempted; a prediction is only ever attempted on a
non-empty feature record. -/
theorem C5_empty_feature_set_guard :
    (∀ text : String, parseFeatures text = [] →
      predict_laptime_btn text = .emptyInputWarning ∨
      predict_laptime_btn text = .noValidPairsWarning) ∧
    (∀ (text : String) (d : FeatureDict),
      predict_laptime_btn text = .predictAttempt d → d ≠ []) := by
  constructor
  · intro text h
    by_cases h1 : pyStrip text = ""
    · exact Or.inl (by simp [predict_laptime_btn, h1])
    · exact Or.inr (by simp [predict_laptime_btn, h1, h])
  · intro text d h
    by_cases h1 : pyStrip text = ""
    · simp [predict_laptime_btn, h1] at h
    · by_cases h2 : parseFeatures text = []
      · simp [predict_laptime_btn, h1, h2] at h
      · have h3 : predict_laptime_btn text = .predictAttempt (parseFeatures text) := by
          simp [predict_laptime_btn, h1, h2]
        rw [h3] at h
        injection h with h4
        exact fun hd => h2 (h4.trans hd)

/-- Witness for C5 at concrete inputs: the empty input is answered by the
empty-input warning, and the prediction attempted on `"a=1"` carries a
non-empty record. -/
theorem C5_empty_feature_set_guard_witness :
    (predict_laptime_btn "" = .emptyInputWarning ∨
      predict_laptime_btn "" = .noValidPairsWarning) ∧
    ([("a", PyVal.num (.finite 1))] : FeatureDict) ≠ [] :=
  ⟨C5_empty_feature_set_guard.1 "" (by decide),
   C5_empty_feature_set_guard.2 "a=1" _ (by decide)⟩

/-- C10: a line whose key is empty after trimming is not skipped — it
contains `=`, so it produces an entry under the empty-string key:
`"=5"` yields "" ↦ 5.0 and `"  = x"` yields "" ↦ "x". -/
theorem C10_empty_key_lines_not_skipped :
    parseFeatures "=5" = [("", .num (.finite 5))] ∧
    parseFeatures "  = x" = [("", .str "x")] ∧
    (∀ d : FeatureDict, parseKVLine d "=5" = dictInsert d "" (.num (.finite 5))) := by
  refine ⟨by decide, by decide, fun d => rfl⟩

/-! ## Theorems: bulk refresh (claim C6) -/

theorem foldl_append_flatMap {α β : Type} (f : α → List β) (l : List α) :
    ∀ init : List β,
      l.foldl (fun acc x => acc ++ f x) init = init ++ l.flatMap f := by
  induction l with
  | nil => intro init; simp
  | cons x xs ih =>
    intro init
    simp only [List.foldl_cons, ih, List.flatMap_cons, List.append_assoc]

theorem filterMap_flatMap {α β γ : Type} (l : List α) (f : α → List β)
    (g : β → Option γ) :
    (l.flatMap f).filterMap g = l.flatMap fun x => (f x).filterMap g := by
  induction l with
  | nil => rfl
  | cons x xs ih =>
    simp only [List.flatMap_cons, List.filterMap_append, ih]

theorem flatMap_pure_map {α β : Type} (g : α → β) (l : List α) :
    (l.flatMap fun x => [g x]) = l.map g := by
  induction l with
  | nil => rfl
  | cons x xs ih => simp only [List.flatMap_cons, List.map_cons, ih]; rfl

/-- The log lines of one loop iteration contain exactly one status line,
carrying that tuple's key and the status decided by reading the world at
that tuple only. -/
theorem refresh_item_statusEntry (w : World) (y : Int) (gp s : String) :
    (refresh_item w y gp s).filterMap statusEntry =
      [((y, gp, s), tupleStatus w y gp s)] := by
  unfold refresh_item tupleStatus
  cases hex : session_exists w.cache y gp s with
  | true => rfl
  | false =>
    simp only [Bool.not_false, if_true, if_false, fetch_session_data]
    cases w.fetch y gp s with
    | ok lapsEmpty => cases lapsEmpty <;> rfl
    | exn e => rfl

/-- The whole run is the concatenation, tuple by tuple in iteration order,
of the per-tuple log lines. -/
theorem bulk_refresh_eq (w : World) (seasons : List Int) (sessions : List String) :
    bulk_refresh w seasons sessions =
      (allTuples w seasons sessions).flatMap fun t =>
        refresh_item w t.1 t.2.1 t.2.2 := by
  unfold bulk_refresh allTuples
  simp only [foldl_append_flatMap, List.nil_append, List.flatMap_assoc,
    List.flatMap_map]

/-- C6: the status lines of a bulk-refresh run are exactly one per
(season, event, session-type) tuple of the iterated schedule, in order —
so an exception on one tuple (caught inside `fetch_session_data` and
logged as Failed) never prevents the remaining tuples from being
processed — and the status logged for a tuple depends only on the cache
and the upstream behaviour at that very tuple. -/
theorem C6_bulk_refresh_isolation (w : World) (seasons : List Int)
    (sessions : List String) :
    ((bulk_refresh w seasons sessions).filterMap statusEntry =
      (allTuples w seasons sessions).map fun t =>
        (t, tupleStatus w t.1 t.2.1 t.2.2)) ∧
    (∀ (w' : World) (y : Int) (gp s : String),
      session_exists w.cache y gp s = session_exists w'.cache y gp s →
      w.fetch y gp s = w'.fetch y gp s →
      tupleStatus w y gp s = tupleStatus w' y gp s) := by
  constructor
  · rw [bulk_refresh_eq, filterMap_flatMap]
    have h : ∀ t : Int × String × String,
        (refresh_item w t.1 t.2.1 t.2.2).filterMap statusEntry =
          [(t, tupleStatus w t.1 t.2.1 t.2.2)] := by
      intro t
      exact refresh_item_statusEntry w t.1 t.2.1 t.2.2
    simp only [h]
    exact flatMap_pure_map _ _
  · intro w' y gp s hcache hfetch
    unfold tupleStatus
    rw [hcache, hfetch]

def demoWorld : World :=
  { schedule := fun y =>
      if y = 2023 then ["Bahrain Grand Prix", "Saudi Arabian Grand Prix"] else []
  , cache :=
      { pathExists := fun p => p = cache_path ⟨2023, "Saudi Arabian Grand Prix", "Q"⟩
      , completeData := fun _ => none }
  , fetch := fun _ gp _ =>
      if gp = "Bahrain Grand Prix" then .exn "connection reset" else .ok false }

/-- Witness for C6 on a concrete two-event world where the first event
fails and the second is served from cache: both tuples still get exactly
one status line each, and the per-tuple status is stable under a world
that agrees at the tuple. -/
theorem C6_bulk_refresh_isolation_witness :
    ((bulk_refresh demoWorld [2023] ["Q"]).filterMap statusEntry =
      (allTuples demoWorld [2023] ["Q"]).map fun t =>
        (t, tupleStatus demoWorld t.1 t.2.1 t.2.2)) ∧
    tupleStatus demoWorld 2023 "Bahrain Grand Prix" "Q" =
      tupleStatus demoWorld 2023 "Bahrain Grand Prix" "Q" :=
  ⟨(C6_bulk_refresh_isolation demoWorld [2023] ["Q"]).1,
   (C6_bulk_refresh_isolation demoWorld [2023] ["Q"]).2 demoWorld
     2023 "Bahrain Grand Prix" "Q" rfl rfl⟩

/-! ## Theorems: the session cache (claim C1) -/

def demoKey : SessionKey := ⟨2023, "Bahrain Grand Prix", "Q"⟩

/-- C1 counterexample: after an interrupted fetch the key's directory is
present, so `session_exists` answers true, yet there is no complete entry
and the load fails — directory presence alone does not imply a successful,
byte-identical load. -/
theorem C1_counterexample_interrupted_fetch :
    session_exists (cache_store_interrupted emptyCache demoKey)
      2023 "Bahrain Grand Prix" "Q" = true ∧
    cache_load (cache_store_interrupted emptyCache demoKey) demoKey = none := by
  constructor <;> rfl

/-- C1 amended: for a key whose store ran to completion (and was not
subsequently interrupted), `session_exists` answers true and the load
returns exactly the stored bytes; the round-trip law holds for completed
stores, while `session_exists` = directory presence alone does not
guarantee it. -/
theorem C1_amended_roundtrip (st : CacheState) (k : SessionKey) (data : List ℕ) :
    session_exists (cache_store st k data) k.year k.gpName k.sessionName = true ∧
    cache_load (cache_store st k data) k = some data := by
  constructor
  · show (if cache_path ⟨k.year, k.gpName, k.sessionName⟩ = cache_path k then true
      else st.pathExists (cache_path ⟨k.year, k.gpName, k.sessionName⟩)) = true
    rw [if_pos rfl]
  · show (if cache_path k = cache_path k then some data
      else st.completeData (cache_path k)) = some data
    rw [if_pos rfl]

/-! ## Theorems: feature-importance ranking (claim C7) -/

/-- C7 counterexample: with two features of equal importance, the reversed
order is also an admissible output of the unstable default sort — the
sort contract of the code does not force ties to keep their original
feature order. -/
theorem C7_counterexample_unstable_tie :
    sort_values_desc (imp_df ["a", "b"] [1, 1]) [⟨"b", 1⟩, ⟨"a", 1⟩] ∧
    ¬ tiesKeepOriginalOrder (imp_df ["a", "b"] [1, 1]) [⟨"b", 1⟩, ⟨"a", 1⟩] := by
  constructor
  · exact ⟨by decide, by decide⟩
  · intro hstable
    have ha : (⟨"a", 1⟩ : FeatImp) ∈ imp_df ["a", "b"] [1, 1] := by
      simp [imp_df]
    have hb : (⟨"b", 1⟩ : FeatImp) ∈ imp_df ["a", "b"] [1, 1] := by
      simp [imp_df]
    have h := (hstable ⟨"a", 1⟩ ha ⟨"b", 1⟩ hb rfl).mp (by decide)
    revert h
    decide

/-- C7 amended: the ranking is a permutation of the rows sorted descending
by importance (and such an output always exists), but since the code uses
the pandas default unstable quicksort, the relative order of
equal-importance features is not guaranteed. -/
theorem C7_amended_importance_ranking (names : List String) (imps : List ℚ)
    (out : List FeatImp) (h : sort_values_desc (imp_df names imps) out) :
    (imp_df names imps).Perm out ∧
    (∀ (i j : ℕ) (hi : i < out.length) (hj : j < out.length), i ≤ j →
      (out.get ⟨j, hj⟩).importance ≤ (out.get ⟨i, hi⟩).importance) ∧
    ∃ out', sort_values_desc (imp_df names imps) out' := by
  refine ⟨h.1, ?_, ?_⟩
  · intro i j hi hj hij
    rcases Nat.lt_or_ge i j with hlt | hge
    · exact List.pairwise_iff_get.mp h.2 ⟨i, hi⟩ ⟨j, hj⟩ hlt
    · have : i = j := le_antisymm hij hge
      subst this
      exact le_refl _
  · refine ⟨List.insertionSort (fun a b => b.importance ≤ a.importance)
      (imp_df names imps), ?_, ?_⟩
    · exact (List.perm_insertionSort _ _).symm
    · haveI ht : IsTotal FeatImp (fun a b => b.importance ≤ a.importance) :=
        ⟨fun a b => le_total b.importance a.importance⟩
      haveI htr : IsTrans FeatImp (fun a b => b.importance ≤ a.importance) :=
        ⟨fun _ _ _ hab hbc => le_trans hbc hab⟩
      exact List.sorted_insertionSort _ _

/-- Witness for C7 at a concrete ranking with distinct importances. -/
theorem C7_amended_importance_ranking_witness :
    (imp_df ["a", "b"] [2, 1]).Perm [⟨"a", 2⟩, ⟨"b", 1⟩] ∧
    (∀ (i j : ℕ) (hi : i < ([⟨"a", 2⟩, ⟨"b", 1⟩] : List FeatImp).length)
      (hj : j < ([⟨"a", 2⟩, ⟨"b", 1⟩] : List FeatImp).length), i ≤ j →
      (([⟨"a", 2⟩, ⟨"b", 1⟩] : List FeatImp).get ⟨j, hj⟩).importance ≤
        (([⟨"a", 2⟩, ⟨"b", 1⟩] : List FeatImp).get ⟨i, hi⟩).importance) ∧
    ∃ out', sort_values_desc (imp_df ["a", "b"] [2, 1]) out' :=
  C7_amended_importance_ranking ["a", "b"] [2, 1] [⟨"a", 2⟩, ⟨"b", 1⟩]
    ⟨List.Perm.refl _, List.sorted_cons.mpr ⟨by
      intro b hb
      simp only [List.mem_singleton] at hb
      rw [hb]
      norm_num, List.sorted_singleton _⟩⟩

/-! ## Theorems: the fastest lap (claim C2) -/

theorem pick_fastest_none_iff (laps : List Lap) :
    pick_fastest laps = none ↔ ∀ l ∈ laps, l.lapTime = none := by
  induction laps with
  | nil => simp [pick_fastest]
  | cons a rest ih =>
    cases ha : a.lapTime with
    | none =>
      rw [pick_fastest, ha]
      simp only [List.mem_cons, forall_eq_or_imp, ha, true_and]
      exact ih
    | some ta =>
      rw [pick_fastest, ha]
      constructor
      · intro hnone
        exfalso
        cases hr : pick_fastest rest with
        | none => rw [hr] at hnone; simp at hnone
        | some b =>
          rw [hr] at hnone
          cases hb : b.lapTime with
          | none => simp [hb] at hnone
          | some tb =>
            by_cases hle : ta ≤ tb <;> simp [hb, hle] at hnone
      · intro hall
        have := hall a (List.mem_cons_self a rest)
        rw [ha] at this
        cases this

theorem pick_fastest_min (laps : List Lap) :
    ∀ l, pick_fastest laps = some l →
      l ∈ laps ∧ ∃ t, l.lapTime = some t ∧
        ∀ l' ∈ laps, ∀ t', l'.lapTime = some t' → t ≤ t' := by
  induction laps with
  | nil => intro l h; cases h
  | cons a rest ih =>
    intro l h
    cases ha : a.lapTime with
    | none =>
      rw [pick_fastest, ha] at h
      obtain ⟨hmem, t, ht, hmin⟩ := ih l h
      refine ⟨List.mem_cons_of_mem a hmem, t, ht, ?_⟩
      intro l' hl' t' ht'
      rcases List.mem_cons.mp hl' with rfl | hl'
      · rw [ha] at ht'; cases ht'
      · exact hmin l' hl' t' ht'
    | some ta =>
      rw [pick_fastest, ha] at h
      cases hr : pick_fastest rest with
      | none =>
        rw [hr] at h
        simp only [Option.some.injEq] at h
        subst h
        have hallnone := (pick_fastest_none_iff rest).mp hr
        refine ⟨List.mem_cons_self a rest, ta, ha, ?_⟩
        intro l' hl' t' ht'
        rcases List.mem_cons.mp hl' with rfl | hl'
        · rw [ha] at ht'
          cases ht'
          exact le_refl ta
        · rw [hallnone l' hl'] at ht'; cases ht'
      | some b =>
        rw [hr] at h
        dsimp only at h
        obtain ⟨hbmem, tb, htb, hbmin⟩ := ih b hr
        rw [htb] at h
        dsimp only at h
        by_cases hle : ta ≤ tb
        · rw [if_pos hle] at h
          simp only [Option.some.injEq] at h
          subst h
          refine ⟨List.mem_cons_self a rest, ta, ha, ?_⟩
          intro l' hl' t' ht'
          rcases List.mem_cons.mp hl' with rfl | hl'
          · rw [ha] at ht'
            cases ht'
            exact le_refl ta
          · exact le_trans hle (hbmin l' hl' t' ht')
        · rw [if_neg hle] at h
          simp only [Option.some.injEq] at h
          subst h
          refine ⟨List.mem_cons_of_mem a hbmem, tb, htb, ?_⟩
          intro l' hl' t' ht'
          rcases List.mem_cons.mp hl' with rfl | hl'
          · rw [ha] at ht'
            cases ht'
            exact le_of_lt (lt_of_not_ge hle)
          · exact hbmin l' hl' t' ht'

/-- C2: `get_fastest_lap` returns null exactly when the driver has no lap
with a non-null lapTime, and any returned lap is one of the driver's laps
whose lapTime is minimal among the driver's non-null lap times. -/
theorem C2_get_fastest_lap (s : Session) (code : String) :
    (get_fastest_lap s code = none ↔
      ∀ l ∈ pick_drivers s.laps code, l.lapTime = none) ∧
    (∀ l, get_fastest_lap s code = some l →
      l ∈ pick_drivers s.laps code ∧ ∃ t, l.lapTime = some t ∧
        ∀ l' ∈ pick_drivers s.laps code, ∀ t', l'.lapTime = some t' → t ≤ t') :=
  ⟨pick_fastest_none_iff _, pick_fastest_min _⟩

def demoLapV1 : Lap := ⟨"VER", 1, some 75, []⟩

def demoLapV2 : Lap := ⟨"VER", 2, some 73, []⟩

def demoLapV3 : Lap := ⟨"VER", 3, none, []⟩

def demoLapH1 : Lap := ⟨"HAM", 1, some 72, []⟩

def demoSession : Session := ⟨[demoLapV1, demoLapV2, demoLapV3, demoLapH1]⟩

/-- Witness for C2 at a concrete session: VER's fastest lap, lap 2 (73 s),
is a member of VER's laps with minimal non-null lap time, and a driver
with no laps at all gets null. -/
theorem C2_get_fastest_lap_witness :
    (demoLapV2 ∈ pick_drivers demoSession.laps "VER" ∧
      ∃ t, demoLapV2.lapTime = some t ∧
        ∀ l' ∈ pick_drivers demoSession.laps "VER",
          ∀ t', l'.lapTime = some t' → t ≤ t') ∧
    get_fastest_lap demoSession "NOR" = none :=
  ⟨(C2_get_fastest_lap demoSession "VER").2 demoLapV2 (by decide),
   (C2_get_fastest_lap demoSession "NOR").1.mpr (by decide)⟩

/-! ## Theorems: telemetry cumulative distance (claim C8) -/

theorem add_distanceAux_length (l : List CarSample) :
    ∀ t0 d0, (add_distanceAux t0 d0 l).length = l.length := by
  induction l with
  | nil => intro t0 d0; rfl
  | cons c rest ih =>
    intro t0 d0
    simp only [add_distanceAux, List.length_cons, ih]

/-- The distances produced by the integration step are non-decreasing and
bounded below by the running distance, provided speeds are non-negative
and the time stamps do not decrease. -/
theorem add_distanceAux_mono (l : List CarSample) :
    ∀ t0 d0, (∀ c ∈ l, 0 ≤ c.speed) →
    List.Chain' (fun a b : CarSample => a.time ≤ b.time) l →
    (∀ c ∈ l.head?, t0 ≤ c.time) →
    List.Chain' (fun a b : DistSample => a.distance ≤ b.distance)
      (add_distanceAux t0 d0 l) ∧
    (∀ x ∈ (add_distanceAux t0 d0 l).head?, d0 ≤ x.distance) := by
  induction l with
  | nil => intro t0 d0 _ _ _; exact ⟨List.chain'_nil, by simp [add_distanceAux]⟩
  | cons c rest ih =>
    intro t0 d0 hspeed hchain hhead
    have hstep : d0 ≤ d0 + c.speed / (18 / 5) * (c.time - t0) := by
      have h1 : (0 : ℚ) ≤ c.speed / (18 / 5) :=
        div_nonneg (hspeed c (List.mem_cons_self c rest)) (by norm_num)
      have h2 : (0 : ℚ) ≤ c.time - t0 :=
        sub_nonneg.mpr (hhead c rfl)
      nlinarith [mul_nonneg h1 h2]
    obtain ⟨hc, hh⟩ := List.chain'_cons'.mp hchain
    obtain ⟨ih1, ih2⟩ := ih c.time (d0 + c.speed / (18 / 5) * (c.time - t0))
      (fun x hx => hspeed x (List.mem_cons_of_mem c hx)) hh hc
    refine ⟨?_, ?_⟩
    · rw [add_distanceAux]
      exact List.chain'_cons'.mpr ⟨ih2, ih1⟩
    · intro x hx
      rw [add_distanceAux] at hx
      simp only [List.head?_cons, Option.mem_def, Option.some.injEq] at hx
      rw [← hx]
      exact hstep

/-- C8: `get_telemetry_data` keeps one output sample per raw sample, its
cumulative distance starts at 0 and — for physically sensible raw data
(non-negative speeds, non-decreasing time stamps) — never decreases along
the lap. -/
theorem C8_telemetry_distance (lap : Lap)
    (hspeed : ∀ c ∈ lap.carData, 0 ≤ c.speed)
    (htime : List.Chain' (fun a b : CarSample => a.time ≤ b.time) lap.carData) :
    (get_telemetry_data lap).length = lap.carData.length ∧
    (∀ x ∈ (get_telemetry_data lap).head?, x.distance = 0) ∧
    List.Chain' (fun a b : DistSample => a.distance ≤ b.distance)
      (get_telemetry_data lap) := by
  unfold get_telemetry_data
  rcases hcd : lap.carData with _ | ⟨c, rest⟩
  · exact ⟨rfl, by simp [add_distance], List.chain'_nil⟩
  · rw [hcd] at hspeed htime
    obtain ⟨hc, hh⟩ := List.chain'_cons'.mp htime
    obtain ⟨h1, h2⟩ := add_distanceAux_mono rest c.time 0
      (fun x hx => hspeed x (List.mem_cons_of_mem c hx)) hh hc
    refine ⟨?_, ?_, ?_⟩
    · rw [add_distance, List.length_cons, List.length_cons,
        add_distanceAux_length]
    · intro x hx
      rw [add_distance] at hx
      simp only [List.head?_cons, Option.mem_def, Option.some.injEq] at hx
      rw [← hx]
    · rw [add_distance]
      exact List.chain'_cons'.mpr ⟨h2, h1⟩

def demoCarData : List CarSample :=
  [⟨0, 0, 11000, 100, false, 3⟩, ⟨1, 36, 11500, 100, false, 4⟩,
   ⟨2, 72, 12000, 80, true, 5⟩]

def demoTelemetryLap : Lap := ⟨"VER", 1, some 73, demoCarData⟩

/-- Witness for C8 at a concrete lap with three samples. -/
theorem C8_telemetry_distance_witness :
    (get_telemetry_data demoTelemetryLap).length =
      demoTelemetryLap.carData.length ∧
    (∀ x ∈ (get_telemetry_data demoTelemetryLap).head?, x.distance = 0) ∧
    List.Chain' (fun a b : DistSample => a.distance ≤ b.distance)
      (get_telemetry_data demoTelemetryLap) :=
  C8_telemetry_distance demoTelemetryLap
    (by
      intro c hc
      simp only [demoTelemetryLap, demoCarData, List.mem_cons,
        List.not_mem_nil, or_false] at hc
      rcases hc with rfl | rfl | rfl <;> norm_num)
    (by
      simp only [demoTelemetryLap, demoCarData, List.chain'_cons,
        List.chain'_singleton, and_true]
      norm_num)

/-- C9: a failed load of the pipeline artifact reports the error and
returns a null model; tab 6 then renders only the unavailability warning
(the prediction feature is disabled), while the analytics parts of the
driver view are computed independently of the model-load result. -/
theorem C9_model_load_nonfatal :
    (∀ e : String, load_laptime_model (.error e) =
      (none, some ("⚠️ Could not load lap time model: " ++ e))) ∧
    tab6_render none = .modelUnavailableWarning ∧
    (∀ m : Pipe, tab6_render (some m) = .predictionUI m) ∧
    (∀ (s : Session) (dr : String) (f : Lap) (a a' : Except String Pipe),
      (render_driver_view s dr f a).telemetryTab =
        (render_driver_view s dr f a').telemetryTab ∧
      (render_driver_view s dr f a).driverLapsTab =
        (render_driver_view s dr f a').driverLapsTab) :=
  ⟨fun _ => rfl, rfl, fun _ => rfl, fun _ _ _ _ _ => ⟨rfl, rfl⟩⟩

end VF
